import Mathlib

/-!
Verification development for the PortfolioBuddy assistant.

This file gives a shallow embedding of the deterministic core of the
program (ledger reading, relevance scoring, sentiment aggregation, the
recommendation rule cascade, portfolio enrichment, intent-classification
fallback, routing, and the turn pipeline) and proves the documented
properties about it.

Modelling conventions:
* Python floats are modelled as exact rationals; the observable structure
  of every claim is arithmetic on the literals 0.1 .. 1.0.
* Fallible external calls (market quotes, news, the language-model oracle,
  numeric parsing of ledger cells) are modelled by `Option` / `Except`
  valued inputs: the caller sees exactly the outcome of the call.
* A Python exception escaping a function is modelled by `Except.error`.
* Timestamps are omitted: no verified property mentions them.
-/

namespace PortfolioBuddy

/-- Sentiment labels, from `portfolio_types.SentimentIndicator`. -/
inductive SentimentIndicator where
  | POSITIVE
  | NEUTRAL
  | NEGATIVE
deriving DecidableEq, Repr

/-- Recommendation actions, from `portfolio_types.ActionType`. -/
inductive ActionType where
  | BUY
  | SELL
  | HOLD
  | WATCH
deriving DecidableEq, Repr

/-- One ledger position, from `portfolio_types.PortfolioHolding`. -/
structure PortfolioHolding where
  symbol : String
  quantity : ℚ
  avg_cost : ℚ
  current_price : Option ℚ
  value : Option ℚ
  gain_loss : Option ℚ
  gain_loss_percent : Option ℚ
deriving DecidableEq, Repr

/-- Portfolio snapshot, from `portfolio_types.PortfolioData`
(`last_updated` omitted). -/
structure PortfolioData where
  holdings : List PortfolioHolding
  total_value : ℚ
  total_gain_loss : ℚ
  total_gain_loss_percent : ℚ
deriving DecidableEq, Repr

/-- News article record, from `portfolio_types.NewsItem`
(`published_at` omitted). -/
structure NewsItem where
  title : String
  content : String
  source : String
  url : String
  sentiment : SentimentIndicator
  relevance_score : ℚ
deriving DecidableEq, Repr

/-- Market quote, from `portfolio_types.MarketData`. -/
structure MarketData where
  symbol : String
  price : ℚ
  change : ℚ
  change_percent : ℚ
  volume : Int
  market_cap : Option ℚ
  pe_ratio : Option ℚ
  day_high : Option ℚ
  day_low : Option ℚ
deriving DecidableEq, Repr

/-- The technical-indicator mapping built by `analyze_symbol`
(change percent, volume, P/E); `none` models the empty mapping. -/
structure TechnicalIndicators where
  change_percent : ℚ
  volume : Int
  pe_ratio : Option ℚ
deriving DecidableEq, Repr

/-- Per-symbol analysis, from `portfolio_types.AnalysisResult`. -/
structure AnalysisResult where
  symbol : String
  current_price : ℚ
  sentiment : SentimentIndicator
  news_summary : List NewsItem
  technical_indicators : Option TechnicalIndicators
  recommendation : ActionType
  confidence : ℚ
  reasoning : String
deriving DecidableEq, Repr

/-! ### String helpers mirroring the Python builtins used by the source -/

/-- Characters stripped by Python `str.strip()` (ASCII whitespace). -/
def isPySpace (c : Char) : Bool :=
  c = ' ' ∨ c = '\t' ∨ c = '\n' ∨ c = '\r' ∨ c = '\x0b' ∨ c = '\x0c'

/-- Python `str.strip()`. -/
def pyStrip (s : String) : String :=
  ⟨((s.toList.dropWhile isPySpace).reverse.dropWhile isPySpace).reverse⟩

/-- Python `str.upper()` (ASCII). -/
def pyUpper (s : String) : String :=
  ⟨s.toList.map Char.toUpper⟩

/-- Python `str.lower()` (ASCII). -/
def pyLower (s : String) : String :=
  ⟨s.toList.map Char.toLower⟩

/-- Does `pat` occur at the head of `s`? -/
def listStarts : List Char → List Char → Bool
  | [], _ => true
  | _ :: _, [] => false
  | a :: as, b :: bs => a = b && listStarts as bs

/-- Count non-overlapping occurrences of the non-empty pattern `pat`,
scanning left to right.  The `fuel` argument only bounds the recursion
structurally; any fuel at least the haystack length gives the scan's
value (after a match the scan continues past the matched text, so the
haystack shrinks by at least one per step). -/
def countSubAux (pat : List Char) : Nat → List Char → Nat
  | _, [] => 0
  | 0, _ :: _ => 0
  | fuel + 1, c :: rest =>
    if listStarts pat (c :: rest) then
      1 + countSubAux pat fuel (List.drop (pat.length - 1) rest)
    else
      countSubAux pat fuel rest

/-- Python `str.count(sub)`: non-overlapping occurrences; an empty
pattern counts `len + 1` times. -/
def countSub (pat s : List Char) : Nat :=
  if pat = [] then s.length + 1 else countSubAux pat s.length s

/-- Python `sub in s` substring containment. -/
def containsSub (pat s : List Char) : Bool :=
  countSub pat s ≠ 0

/-- Python `f"\x7bx:.1f\x7d"` fixed-point rendering with one decimal
place (rounding to the nearest tenth). -/
def fmt1 (q : ℚ) : String :=
  let n : Int := round (q * 10)
  if n < 0 then
    "-" ++ toString ((-n) / 10) ++ "." ++ toString ((-n) % 10)
  else
    toString (n / 10) ++ "." ++ toString (n % 10)

/-! ### News relevance (`NewsManager._calculate_relevance`) -/

/-- The fixed financial keyword list from `_calculate_relevance`. -/
def financial_keywords : List String :=
  ["stock", "share", "trading", "market", "price", "investment", "portfolio"]

/-- `NewsManager._calculate_relevance` (tools.py lines 206-219):
count case-insensitive symbol mentions, count keywords present, combine
with weights 0.6 / 0.4 and cap at 1.0. -/
def _calculate_relevance (text symbol : String) : ℚ :=
  let text_lower := pyLower text
  let symbol_lower := pyLower symbol
  let symbol_count : ℚ := countSub symbol_lower.toList text_lower.toList
  let keyword_count : ℚ :=
    financial_keywords.countP (fun keyword => containsSub keyword.toList text_lower.toList)
  let relevance := symbol_count * (6 / 10) + keyword_count * (4 / 10)
  min relevance 1

/-- Relevance formula written from the specification's words:
min(1.0, 0.6 × case-insensitive symbol mention count + 0.4 × number of
distinct keywords from the fixed set present in the text). -/
def relevanceSpec (text symbol : String) : ℚ :=
  let mentions : ℚ := countSub (pyLower symbol).toList (pyLower text).toList
  let distinctKeywords : ℚ :=
    ((financial_keywords.filter
      (fun keyword => containsSub keyword.toList (pyLower text).toList)).dedup).length
  min 1 ((6 / 10) * mentions + (4 / 10) * distinctKeywords)

/-! ### Aggregate sentiment (`analyze_symbol`, tools.py lines 244-256) -/

/-- The aggregate-sentiment computation of `analyze_symbol`: compare the
number of positive-labelled and negative-labelled articles; an empty
news list is neutral. -/
def overallSentiment (news_items : List NewsItem) : SentimentIndicator :=
  if news_items ≠ [] then
    let positive_count := news_items.countP (fun item => item.sentiment = .POSITIVE)
    let negative_count := news_items.countP (fun item => item.sentiment = .NEGATIVE)
    if positive_count > negative_count then .POSITIVE
    else if negative_count > positive_count then .NEGATIVE
    else .NEUTRAL
  else .NEUTRAL

/-- Majority vote over per-article sentiment labels, written from the
specification's words: the label with strictly the most votes wins and
ties yield NEUTRAL. -/
def majorityVoteSpec (labels : List SentimentIndicator) : SentimentIndicator :=
  let p := labels.countP (fun l => l = .POSITIVE)
  let n := labels.countP (fun l => l = .NEGATIVE)
  let u := labels.countP (fun l => l = .NEUTRAL)
  if p > n ∧ p > u then .POSITIVE
  else if n > p ∧ n > u then .NEGATIVE
  else .NEUTRAL

/-! ### Ledger reading (`CSVPortfolioManager.get_portfolio_data`) -/

instance {ε α : Type} [DecidableEq ε] [DecidableEq α] : DecidableEq (Except ε α) := by
  intro a b
  cases a <;> cases b
  case error.error x y =>
    exact if h : x = y then isTrue (by rw [h]) else isFalse (fun hh => h (by cases hh; rfl))
  case error.ok x y => exact isFalse (fun hh => by cases hh)
  case ok.error x y => exact isFalse (fun hh => by cases hh)
  case ok.ok x y =>
    exact if h : x = y then isTrue (by rw [h]) else isFalse (fun hh => h (by cases hh; rfl))

/-- Outcome of `float(row[...])` on one numeric CSV cell.
`ok` models a successful conversion; `caught` models `ValueError`
(unparseable cell text) or `KeyError` (column name missing from the
header), the two exception types listed in the row-level handler at
tools.py line 52; `uncaught` models `TypeError` — a short data row
makes `csv.DictReader` fill the missing cell with its `restval`
default `None`, and `float(None)` raises `TypeError`, which the
row-level `except (ValueError, KeyError)` does not catch. -/
inductive CellParse where
  | ok (q : ℚ)
  | caught
  | uncaught
deriving DecidableEq, Repr

/-- One CSV row as the reader sees it: `symbol` is the value of the
`Symbol` column (a missing key reads as `""` via `row.get`), and the
numeric columns carry the `float(...)` outcome of each cell. -/
structure LedgerRow where
  symbol : String
  quantity : CellParse
  avgCost : CellParse
deriving DecidableEq, Repr

/-- The per-row body of the reader loop (tools.py lines 35-54): skip a
row with a blank symbol (`.ok none`); evaluate `float(row['Quantity'])`
then `float(row['Average Cost'])` in that order — a `caught` failure is
absorbed by the row-level handler and skips the row (`.ok none`), while
an `uncaught` failure escapes the row loop (`.error ()`); otherwise
build a holding with the symbol uppercased and stripped and all derived
fields absent. -/
def rowOutcome (row : LedgerRow) : Except Unit (Option PortfolioHolding) :=
  if pyStrip row.symbol = "" then .ok none
  else
    match row.quantity with
    | .uncaught => .error ()
    | .caught => .ok none
    | .ok q =>
      match row.avgCost with
      | .uncaught => .error ()
      | .caught => .ok none
      | .ok a =>
        .ok (some { symbol := pyStrip (pyUpper row.symbol), quantity := q,
                    avg_cost := a, current_price := none, value := none,
                    gain_loss := none, gain_loss_percent := none })

/-- The reader's row loop: accumulate the accepted holdings in order;
an uncaught row exception aborts the loop and propagates. -/
def readRows : List LedgerRow → Except Unit (List PortfolioHolding)
  | [] => .ok []
  | row :: rest =>
    match rowOutcome row with
    | .error e => .error e
    | .ok none => readRows rest
    | .ok (some holding) =>
      match readRows rest with
      | .error e => .error e
      | .ok hs => .ok (holding :: hs)

/-- `CSVPortfolioManager.get_portfolio_data` (tools.py lines 18-72):
`none` models a missing ledger file; every aggregate starts at zero.
An exception escaping the row loop reaches the function-level
`except Exception` at line 64, which returns the empty snapshot —
discarding every row that had already been accepted. -/
def get_portfolio_data (file : Option (List LedgerRow)) : PortfolioData :=
  match file with
  | none =>
    { holdings := [], total_value := 0, total_gain_loss := 0,
      total_gain_loss_percent := 0 }
  | some rows =>
    match readRows rows with
    | .error _ =>
      { holdings := [], total_value := 0, total_gain_loss := 0,
        total_gain_loss_percent := 0 }
    | .ok holdings =>
      { holdings := holdings, total_value := 0, total_gain_loss := 0,
        total_gain_loss_percent := 0 }

/-! ### Portfolio enrichment (`update_portfolio_with_market_data`) -/

/-- The in-place field updates of the enrichment loop body
(tools.py lines 345-348) for a holding whose symbol has a quote. -/
def enrichedHolding (holding : PortfolioHolding) (market_data : MarketData) :
    PortfolioHolding :=
  { holding with
    current_price := some market_data.price,
    value := some (holding.quantity * market_data.price),
    gain_loss := some ((market_data.price - holding.avg_cost) * holding.quantity),
    gain_loss_percent :=
      some ((market_data.price - holding.avg_cost) / holding.avg_cost * 100) }

/-- The enrichment loop (tools.py lines 341-351): walk the holdings,
updating those whose symbol has a quote and accumulating `total_value`
and `total_gain_loss`; a quoted holding with `avg_cost = 0` raises
`ZeroDivisionError` in the `gain_loss_percent` division, modelled by
`Except.error ()`. -/
def enrichHoldings (quotes : String → Option MarketData) :
    List PortfolioHolding → Except Unit (List PortfolioHolding × ℚ × ℚ)
  | [] => .ok ([], 0, 0)
  | holding :: rest =>
    match quotes holding.symbol with
    | none =>
      match enrichHoldings quotes rest with
      | .error e => .error e
      | .ok (hs, tv, tg) => .ok (holding :: hs, tv, tg)
    | some market_data =>
      if holding.avg_cost = 0 then .error ()
      else
        match enrichHoldings quotes rest with
        | .error e => .error e
        | .ok (hs, tv, tg) =>
          .ok (enrichedHolding holding market_data :: hs,
               holding.quantity * market_data.price + tv,
               (market_data.price - holding.avg_cost) * holding.quantity + tg)

/-- `PortfolioAnalyzer.update_portfolio_with_market_data`
(tools.py lines 334-358): enrich the holdings, then set the aggregates,
guarding the percent against `total_value = total_gain_loss`. -/
def update_portfolio_with_market_data (portfolio : PortfolioData)
    (quotes : String → Option MarketData) : Except Unit PortfolioData :=
  match enrichHoldings quotes portfolio.holdings with
  | .error e => .error e
  | .ok (hs, total_value, total_gain_loss) =>
    .ok { holdings := hs,
          total_value := total_value,
          total_gain_loss := total_gain_loss,
          total_gain_loss_percent :=
            if total_value ≠ total_gain_loss then
              total_gain_loss / (total_value - total_gain_loss) * 100
            else 0 }

/-- Specification-side per-holding enrichment: a holding whose symbol
has a quote gets the derived fields, one without a quote is unchanged. -/
def enrichFn (quotes : String → Option MarketData) (holding : PortfolioHolding) :
    PortfolioHolding :=
  match quotes holding.symbol with
  | none => holding
  | some market_data => enrichedHolding holding market_data

/-- Specification-side contribution of a holding to `total_value`:
zero when its symbol has no quote. -/
def quotedValue (quotes : String → Option MarketData) (holding : PortfolioHolding) : ℚ :=
  match quotes holding.symbol with
  | none => 0
  | some market_data => holding.quantity * market_data.price

/-- Specification-side contribution of a holding to `total_gain_loss`:
zero when its symbol has no quote. -/
def quotedGainLoss (quotes : String → Option MarketData) (holding : PortfolioHolding) : ℚ :=
  match quotes holding.symbol with
  | none => 0
  | some market_data => (market_data.price - holding.avg_cost) * holding.quantity

/-! ### Recommendation engine (`PortfolioAnalyzer._generate_recommendation`) -/

/-- `PortfolioAnalyzer._generate_recommendation` (tools.py lines 278-332):
base action from the percent price change, sentiment adjustment, then
holding-aware dampening; the reasoning fragments are joined by ". " with
a trailing period.  The `news` argument is accepted but unused, as in
the source. -/
def _generate_recommendation (market_data : MarketData)
    (sentiment : SentimentIndicator) (news : List NewsItem)
    (holding : Option PortfolioHolding) : ActionType × ℚ × String :=
  let _ := news
  let change_percent := market_data.change_percent
  let base : ActionType × ℚ × List String :=
    if change_percent > 5 then
      (.BUY, 7 / 10, ["Price is up " ++ fmt1 change_percent ++ "%"])
    else if change_percent < -5 then
      (.SELL, 7 / 10, ["Price is down " ++ fmt1 |change_percent| ++ "%"])
    else
      (.HOLD, 5 / 10, ["Price is relatively stable"])
  let afterSentiment : ActionType × ℚ × List String :=
    match sentiment with
    | .POSITIVE =>
      if base.1 = .BUY then
        (base.1, min (base.2.1 + 2 / 10) 1, base.2.2 ++ ["Positive news sentiment"])
      else if base.1 = .SELL then
        (.HOLD, max (base.2.1 - 2 / 10) (1 / 10), base.2.2 ++ ["Positive news sentiment"])
      else
        (base.1, base.2.1, base.2.2 ++ ["Positive news sentiment"])
    | .NEGATIVE =>
      if base.1 = .SELL then
        (base.1, min (base.2.1 + 2 / 10) 1, base.2.2 ++ ["Negative news sentiment"])
      else if base.1 = .BUY then
        (.HOLD, max (base.2.1 - 2 / 10) (1 / 10), base.2.2 ++ ["Negative news sentiment"])
      else
        (base.1, base.2.1, base.2.2 ++ ["Negative news sentiment"])
    | .NEUTRAL => base
  let afterHolding : ActionType × ℚ × List String :=
    match holding with
    | some held =>
      match held.gain_loss_percent with
      | some gain_loss_percent =>
        if gain_loss_percent > 20 then
          let parts := afterSentiment.2.2 ++ ["You have " ++ fmt1 gain_loss_percent ++ "% gains"]
          if afterSentiment.1 = .BUY then
            (.HOLD, max (afterSentiment.2.1 - 1 / 10) (3 / 10), parts)
          else
            (afterSentiment.1, afterSentiment.2.1, parts)
        else if gain_loss_percent < -20 then
          (afterSentiment.1, afterSentiment.2.1,
           afterSentiment.2.2 ++ ["You have " ++ fmt1 |gain_loss_percent| ++ "% losses"])
        else
          afterSentiment
      | none => afterSentiment
    | none => afterSentiment
  (afterHolding.1, afterHolding.2.1, String.intercalate ". " afterHolding.2.2 ++ ".")

/-- Rule 1 of the specification's cascade: base action from
change_percent, with its reasoning fragment. -/
def specBaseRule (change_percent : ℚ) : ActionType × ℚ × List String :=
  if change_percent > 5 then
    (.BUY, 7 / 10, ["Price is up " ++ fmt1 change_percent ++ "%"])
  else if change_percent < -5 then
    (.SELL, 7 / 10, ["Price is down " ++ fmt1 |change_percent| ++ "%"])
  else
    (.HOLD, 5 / 10, ["Price is relatively stable"])

/-- Rule 2 of the specification's cascade: sentiment adjustment with a
sentiment fragment, mirrored between POSITIVE and NEGATIVE. -/
def specSentimentRule (sentiment : SentimentIndicator) :
    ActionType × ℚ × List String → ActionType × ℚ × List String
  | (action, confidence, parts) =>
    match sentiment with
    | .POSITIVE =>
      if action = .BUY then
        (action, min (confidence + 2 / 10) 1, parts ++ ["Positive news sentiment"])
      else if action = .SELL then
        (.HOLD, max (confidence - 2 / 10) (1 / 10), parts ++ ["Positive news sentiment"])
      else
        (action, confidence, parts ++ ["Positive news sentiment"])
    | .NEGATIVE =>
      if action = .SELL then
        (action, min (confidence + 2 / 10) 1, parts ++ ["Negative news sentiment"])
      else if action = .BUY then
        (.HOLD, max (confidence - 2 / 10) (1 / 10), parts ++ ["Negative news sentiment"])
      else
        (action, confidence, parts ++ ["Negative news sentiment"])
    | .NEUTRAL => (action, confidence, parts)

/-- Rule 3 of the specification's cascade: holding-aware dampening for
large gains, a losses fragment for large losses. -/
def specHoldingRule (holding : Option PortfolioHolding) :
    ActionType × ℚ × List String → ActionType × ℚ × List String
  | (action, confidence, parts) =>
    match holding with
    | some held =>
      match held.gain_loss_percent with
      | some gain_loss_percent =>
        if gain_loss_percent > 20 then
          let parts2 := parts ++ ["You have " ++ fmt1 gain_loss_percent ++ "% gains"]
          if action = .BUY then (.HOLD, max (confidence - 1 / 10) (3 / 10), parts2)
          else (action, confidence, parts2)
        else if gain_loss_percent < -20 then
          (action, confidence, parts ++ ["You have " ++ fmt1 |gain_loss_percent| ++ "% losses"])
        else
          (action, confidence, parts)
      | none => (action, confidence, parts)
    | none => (action, confidence, parts)

/-- The recommendation written from the specification's words: the three
rules applied in order, the fragments joined by ". " with a trailing
period. -/
def recommendationSpec (quote : MarketData) (sentiment : SentimentIndicator)
    (holding : Option PortfolioHolding) : ActionType × ℚ × String :=
  let r := specHoldingRule holding (specSentimentRule sentiment (specBaseRule quote.change_percent))
  (r.1, r.2.1, String.intercalate ". " r.2.2 ++ ".")

/-! ### Symbol analysis (`PortfolioAnalyzer.analyze_symbol`) -/

/-- `PortfolioAnalyzer.analyze_symbol` (tools.py lines 226-276): the
market-data and news fetches are passed in as their outcomes. -/
def analyze_symbol (symbol : String) (market_data : Option MarketData)
    (news_items : List NewsItem) (holding : Option PortfolioHolding) :
    AnalysisResult :=
  match market_data with
  | none =>
    { symbol := symbol, current_price := 0, sentiment := .NEUTRAL,
      news_summary := [], technical_indicators := none,
      recommendation := .WATCH, confidence := 0,
      reasoning := "Unable to fetch market data" }
  | some md =>
    let overall_sentiment := overallSentiment news_items
    let r := _generate_recommendation md overall_sentiment news_items holding
    { symbol := symbol, current_price := md.price, sentiment := overall_sentiment,
      news_summary := news_items.take 3,
      technical_indicators :=
        some { change_percent := md.change_percent, volume := md.volume,
               pe_ratio := md.pe_ratio },
      recommendation := r.1, confidence := r.2.1, reasoning := r.2.2 }

/-! ### Intent classification and routing (agent.py) -/

/-- The structured record extracted from the classification oracle's
reply: each field is `none` when absent from the parsed record. -/
structure ClassifierReply where
  intent : Option String
  symbols : Option (List String)
  requires_portfolio : Option Bool
deriving DecidableEq, Repr

/-- The `user_context` fields set by classification. -/
structure ClassContext where
  intent : String
  symbols : List String
  requires_portfolio : Bool
deriving DecidableEq, Repr

/-- The classification core of `_process_message` (agent.py lines
95-119): `Except.error ()` models an oracle failure or an unparseable
reply (the `except` branch); a parsed record fills each absent field
with that field's own default via `dict.get`. -/
def classifyMessage (reply : Except Unit ClassifierReply) : ClassContext :=
  match reply with
  | .error _ =>
    { intent := "general_question", symbols := [], requires_portfolio := false }
  | .ok record =>
    { intent := record.intent.getD "general_question",
      symbols := record.symbols.getD [],
      requires_portfolio := record.requires_portfolio.getD false }

/-- The full fallback classification of the specification. -/
def fallbackClassification : ClassContext :=
  { intent := "general_question", symbols := [], requires_portfolio := false }

/-- `_should_fetch_portfolio` (agent.py lines 123-130). -/
def _should_fetch_portfolio (context : ClassContext) : String :=
  if context.requires_portfolio then "fetch_portfolio"
  else if context.intent = "portfolio_query" ∨ context.intent = "stock_analysis" then
    "fetch_portfolio"
  else "generate_response"

/-! ### The turn pipeline (`PortfolioBuddyAgent`) -/

/-- One session message (`role`, `content`); timestamps omitted. -/
structure Msg where
  role : String
  content : String
deriving DecidableEq, Repr

/-- The per-user session state, from `portfolio_types.AgentState`;
`all_analyses` is the `user_context["all_analyses"]` entry. -/
structure AgentState where
  messages : List Msg
  portfolio_data : Option PortfolioData
  current_analysis : Option AnalysisResult
  user_context : ClassContext
  all_analyses : List AnalysisResult
  last_action : Option String

/-- The outcomes of every external call a turn can make: the classifier
oracle reply, the ledger file contents, the quote function used by
enrichment, the quote and news functions used per analysed symbol, and
the synthesis oracle reply. -/
structure TurnOracles where
  classifier_reply : Except Unit ClassifierReply
  ledger : Option (List LedgerRow)
  quotes : String → Option MarketData
  analysis_quotes : String → Option MarketData
  news_for : String → List NewsItem
  synthesis_reply : Except Unit String

/-- `_process_message` (agent.py lines 70-121): store the
classification in the user context. -/
def process_message_step (reply : Except Unit ClassifierReply)
    (state : AgentState) : AgentState :=
  { state with user_context := classifyMessage reply }

/-- `_fetch_portfolio` (agent.py lines 132-145): read the ledger and
enrich it; an exception escaping enrichment is caught at the step
boundary and leaves `portfolio_data` null. -/
def fetch_portfolio_step (ledger : Option (List LedgerRow))
    (quotes : String → Option MarketData) (state : AgentState) : AgentState :=
  match update_portfolio_with_market_data (get_portfolio_data ledger) quotes with
  | .ok portfolio => { state with portfolio_data := some portfolio }
  | .error _ => { state with portfolio_data := none }

/-- `_analyze_portfolio` (agent.py lines 147-175): a null portfolio
passes through unchanged; otherwise analyse the extracted symbols, or
every held symbol when none were extracted, and keep the first result
as the primary analysis. -/
def analyze_portfolio_step (analysis_quotes : String → Option MarketData)
    (news_for : String → List NewsItem) (state : AgentState) : AgentState :=
  match state.portfolio_data with
  | none => state
  | some portfolio =>
    let symbols_to_analyze :=
      if state.user_context.symbols = [] then portfolio.holdings.map (·.symbol)
      else state.user_context.symbols
    let analyses := symbols_to_analyze.map (fun symbol =>
      analyze_symbol symbol (analysis_quotes symbol) (news_for symbol)
        (portfolio.holdings.find? (fun h => h.symbol = symbol)))
    match analyses with
    | [] => state
    | primary :: _ =>
      { state with current_analysis := some primary, all_analyses := analyses }

/-- The fixed apology of `_generate_response` (agent.py line 273). -/
def apologyMessage : String :=
  "Sorry, I encountered an error processing your request. Please try again."

/-- `_generate_response` (agent.py lines 177-280): append the synthesis
oracle's reply as the assistant message, or the fixed apology when the
call (or anything else inside the step body) fails. -/
def generate_response_step (synthesis_reply : Except Unit String)
    (state : AgentState) : AgentState :=
  match synthesis_reply with
  | .ok text => { state with messages := state.messages ++ [⟨"assistant", text⟩] }
  | .error _ =>
    { state with messages := state.messages ++ [⟨"assistant", apologyMessage⟩] }

/-- The compiled graph (agent.py lines 44-68): entry at
`process_message`, conditional edge by `_should_fetch_portfolio`, then
`fetch_portfolio → analyze_portfolio → generate_response → END`. -/
def run_graph (oracles : TurnOracles) (state : AgentState) : AgentState :=
  let classified := process_message_step oracles.classifier_reply state
  let route := _should_fetch_portfolio classified.user_context
  if route = "fetch_portfolio" then
    generate_response_step oracles.synthesis_reply
      (analyze_portfolio_step oracles.analysis_quotes oracles.news_for
        (fetch_portfolio_step oracles.ledger oracles.quotes classified))
  else if route = "analyze_portfolio" then
    generate_response_step oracles.synthesis_reply
      (analyze_portfolio_step oracles.analysis_quotes oracles.news_for classified)
  else
    generate_response_step oracles.synthesis_reply classified

/-- The turn core of `process_telegram_message` (agent.py lines
294-311): append the user message to the session, then invoke the
graph. -/
def process_turn (user_text : String) (oracles : TurnOracles)
    (session : AgentState) : AgentState :=
  run_graph oracles { session with messages := session.messages ++ [⟨"user", user_text⟩] }

/-! ### Concrete sample inputs for the closed checks -/

/-- Sample quote for symbol AAA (price 20). -/
def mdA : MarketData :=
  { symbol := "AAA", price := 20, change := 1, change_percent := 2, volume := 1000,
    market_cap := none, pe_ratio := none, day_high := none, day_low := none }

/-- Sample quote for symbol BBB (price 4). -/
def mdB : MarketData :=
  { symbol := "BBB", price := 4, change := -1, change_percent := -20, volume := 500,
    market_cap := none, pe_ratio := none, day_high := none, day_low := none }

/-- Sample batch-quote outcome: AAA and BBB succeed, every other symbol fails. -/
def sampleQuotes : String → Option MarketData := fun s =>
  if s = "AAA" then some mdA else if s = "BBB" then some mdB else none

/-- Sample unenriched holding of AAA. -/
def holdingA : PortfolioHolding :=
  { symbol := "AAA", quantity := 1, avg_cost := 10, current_price := none,
    value := none, gain_loss := none, gain_loss_percent := none }

/-- Sample unenriched holding of BBB. -/
def holdingB : PortfolioHolding :=
  { symbol := "BBB", quantity := 2, avg_cost := 5, current_price := none,
    value := none, gain_loss := none, gain_loss_percent := none }

/-- Sample unenriched holding of CCC (no quote available for it). -/
def holdingC : PortfolioHolding :=
  { symbol := "CCC", quantity := 3, avg_cost := 4, current_price := none,
    value := none, gain_loss := none, gain_loss_percent := none }

/-- Sample three-symbol snapshot before enrichment. -/
def samplePortfolio : PortfolioData :=
  { holdings := [holdingA, holdingB, holdingC], total_value := 0,
    total_gain_loss := 0, total_gain_loss_percent := 0 }

/-- The snapshot `samplePortfolio` enriched with `sampleQuotes`. -/
def samplePortfolioEnriched : PortfolioData :=
  { holdings :=
      [{ symbol := "AAA", quantity := 1, avg_cost := 10, current_price := some 20,
         value := some 20, gain_loss := some 10, gain_loss_percent := some 100 },
       { symbol := "BBB", quantity := 2, avg_cost := 5, current_price := some 4,
         value := some 8, gain_loss := some (-2), gain_loss_percent := some (-20) },
       holdingC],
    total_value := 28, total_gain_loss := 8, total_gain_loss_percent := 40 }

/-- Sample quote at price 110 for the zero-cost check. -/
def mdZ : MarketData :=
  { symbol := "ZZZ", price := 110, change := 0, change_percent := 0, volume := 0,
    market_cap := none, pe_ratio := none, day_high := none, day_low := none }

/-- A holding with `avg_cost = 0`: the division-by-zero input. -/
def zeroCostHolding : PortfolioHolding :=
  { symbol := "ZZZ", quantity := 1, avg_cost := 0, current_price := none,
    value := none, gain_loss := none, gain_loss_percent := none }

/-- A holding with positive cost basis for the formula check. -/
def posCostHolding : PortfolioHolding :=
  { symbol := "ZZZ", quantity := 2, avg_cost := 100, current_price := none,
    value := none, gain_loss := none, gain_loss_percent := none }

/-- A quote source that always returns `mdZ`. -/
def constQuotes : String → Option MarketData := fun _ => some mdZ

/-- A ledger row whose symbol is blank after stripping. -/
def blankRow : LedgerRow := { symbol := "   ", quantity := .ok 1, avgCost := .ok 2 }

/-- A ledger row whose quantity cell fails numeric parsing with a
caught error (unparseable text, `ValueError`). -/
def badRow : LedgerRow := { symbol := "msft", quantity := .caught, avgCost := .ok 3 }

/-- A well-formed ledger row with padding and lowercase in the symbol. -/
def goodRow : LedgerRow := { symbol := " aapl ", quantity := .ok 10, avgCost := .ok 150 }

/-- A short data row "nvda,5": the Average Cost cell is missing, so
`DictReader` fills it with `None` and `float(None)` raises an uncaught
`TypeError`. -/
def shortRow : LedgerRow := { symbol := "nvda", quantity := .ok 5, avgCost := .uncaught }

/-- A news item labelled positive. -/
def samplePosNews : NewsItem :=
  { title := "t", content := "c", source := "s", url := "u",
    sentiment := .POSITIVE, relevance_score := 0 }

/-- A news item labelled neutral. -/
def sampleNeuNews : NewsItem :=
  { title := "t", content := "c", source := "s", url := "u",
    sentiment := .NEUTRAL, relevance_score := 0 }

/-! ### Helper lemmas -/

/-- The source's recommendation function computes exactly the three-rule
cascade of the specification; the news list is not consulted. -/
lemma genRec_eq_spec (md : MarketData) (sentiment : SentimentIndicator)
    (news : List NewsItem) (holding : Option PortfolioHolding) :
    _generate_recommendation md sentiment news holding =
      recommendationSpec md sentiment holding := by
  unfold _generate_recommendation recommendationSpec specBaseRule specSentimentRule
    specHoldingRule
  cases sentiment <;> cases holding <;> rfl

lemma specBaseRule_confidence (cp : ℚ) :
    (specBaseRule cp).2.1 = 7 / 10 ∨ (specBaseRule cp).2.1 = 5 / 10 := by
  unfold specBaseRule
  split_ifs <;> simp

lemma specSentimentRule_confidence (s : SentimentIndicator)
    (r : ActionType × ℚ × List String) (h1 : 1 / 10 ≤ r.2.1) (h2 : r.2.1 ≤ 1) :
    1 / 10 ≤ (specSentimentRule s r).2.1 ∧ (specSentimentRule s r).2.1 ≤ 1 := by
  rcases r with ⟨a, c, parts⟩
  simp only at h1 h2
  cases s <;> simp only [specSentimentRule] <;>
    first
      | exact ⟨h1, h2⟩
      | (split_ifs <;>
          refine ⟨?_, ?_⟩ <;>
          simp only [le_min_iff, min_le_iff, le_max_iff, max_le_iff] <;>
          first
            | (left; linarith)
            | (right; linarith)
            | (constructor <;> linarith)
            | linarith)

lemma specHoldingRule_confidence (holding : Option PortfolioHolding)
    (r : ActionType × ℚ × List String) (h1 : 1 / 10 ≤ r.2.1) (h2 : r.2.1 ≤ 1) :
    1 / 10 ≤ (specHoldingRule holding r).2.1 ∧ (specHoldingRule holding r).2.1 ≤ 1 := by
  rcases r with ⟨a, c, parts⟩
  simp only at h1 h2
  rcases holding with _ | held
  · exact ⟨h1, h2⟩
  · simp only [specHoldingRule]
    rcases held.gain_loss_percent with _ | glp
    · exact ⟨h1, h2⟩
    · simp only
      split_ifs <;>
        refine ⟨?_, ?_⟩ <;>
        simp only [le_min_iff, min_le_iff, le_max_iff, max_le_iff] <;>
        first
          | (left; linarith)
          | (right; linarith)
          | (constructor <;> linarith)
          | linarith

/-- Confidence of the source recommendation always lies in [0.1, 1]. -/
lemma genRec_confidence_bounds (md : MarketData) (sentiment : SentimentIndicator)
    (news : List NewsItem) (holding : Option PortfolioHolding) :
    1 / 10 ≤ (_generate_recommendation md sentiment news holding).2.1 ∧
      (_generate_recommendation md sentiment news holding).2.1 ≤ 1 := by
  rw [genRec_eq_spec]
  unfold recommendationSpec
  simp only
  have hb : 1 / 10 ≤ (specBaseRule md.change_percent).2.1 ∧
      (specBaseRule md.change_percent).2.1 ≤ 1 := by
    rcases specBaseRule_confidence md.change_percent with h | h <;> rw [h] <;>
      norm_num
  have hs := specSentimentRule_confidence sentiment _ hb.1 hb.2
  exact specHoldingRule_confidence holding _ hs.1 hs.2

lemma specBaseRule_action (cp : ℚ) : (specBaseRule cp).1 ≠ .WATCH := by
  unfold specBaseRule
  split_ifs <;> simp

lemma specSentimentRule_action (s : SentimentIndicator)
    (r : ActionType × ℚ × List String) (h : r.1 ≠ .WATCH) :
    (specSentimentRule s r).1 ≠ .WATCH := by
  rcases r with ⟨a, c, parts⟩
  simp only at h
  cases s <;> simp only [specSentimentRule] <;>
    first
      | exact h
      | (split_ifs <;> simp_all)

lemma specHoldingRule_action (holding : Option PortfolioHolding)
    (r : ActionType × ℚ × List String) (h : r.1 ≠ .WATCH) :
    (specHoldingRule holding r).1 ≠ .WATCH := by
  rcases r with ⟨a, c, parts⟩
  simp only at h
  rcases holding with _ | held
  · exact h
  · simp only [specHoldingRule]
    rcases held.gain_loss_percent with _ | glp
    · exact h
    · simp only
      split_ifs <;> simp_all

/-- The source recommendation never yields WATCH. -/
lemma genRec_action_ne_watch (md : MarketData) (sentiment : SentimentIndicator)
    (news : List NewsItem) (holding : Option PortfolioHolding) :
    (_generate_recommendation md sentiment news holding).1 ≠ .WATCH := by
  rw [genRec_eq_spec]
  unfold recommendationSpec
  simp only
  exact specHoldingRule_action holding _
    (specSentimentRule_action sentiment _ (specBaseRule_action md.change_percent))

/-- Successful enrichment maps each holding through `enrichFn` and sums
the per-holding contributions. -/
lemma enrichHoldings_ok_spec (quotes : String → Option MarketData) :
    ∀ (hs hs2 : List PortfolioHolding) (tv tg : ℚ),
      enrichHoldings quotes hs = .ok (hs2, tv, tg) →
      hs2 = hs.map (enrichFn quotes) ∧
      tv = (hs.map (quotedValue quotes)).sum ∧
      tg = (hs.map (quotedGainLoss quotes)).sum := by
  intro hs
  induction hs with
  | nil =>
    intro hs2 tv tg h
    simp only [enrichHoldings, Except.ok.injEq, Prod.mk.injEq] at h
    simp [← h.1, ← h.2.1, ← h.2.2]
  | cons hd rest ih =>
    intro hs2 tv tg h
    unfold enrichHoldings at h
    cases hq : quotes hd.symbol with
    | none =>
      rw [hq] at h
      cases hrec : enrichHoldings quotes rest with
      | error e => rw [hrec] at h; cases h
      | ok triple =>
        rcases triple with ⟨hs', tv', tg'⟩
        rw [hrec] at h
        simp only [Except.ok.injEq, Prod.mk.injEq] at h
        obtain ⟨hh, htv, htg⟩ := h
        obtain ⟨ih1, ih2, ih3⟩ := ih hs' tv' tg' hrec
        subst hh htv htg
        simp [List.map_cons, enrichFn, quotedValue, quotedGainLoss, hq, ih1, ih2, ih3]
    | some md =>
      rw [hq] at h
      dsimp only at h
      by_cases hz : hd.avg_cost = 0
      · rw [if_pos hz] at h; cases h
      · rw [if_neg hz] at h
        cases hrec : enrichHoldings quotes rest with
        | error e => rw [hrec] at h; cases h
        | ok triple =>
          rcases triple with ⟨hs', tv', tg'⟩
          rw [hrec] at h
          simp only [Except.ok.injEq, Prod.mk.injEq] at h
          obtain ⟨hh, htv, htg⟩ := h
          obtain ⟨ih1, ih2, ih3⟩ := ih hs' tv' tg' hrec
          subst hh htv htg
          simp [List.map_cons, enrichFn, quotedValue, quotedGainLoss, hq, ih1, ih2, ih3]

/-- A row whose numeric cell fails with an uncaught exception makes the
whole row loop fail, wherever the row occurs in the file. -/
lemma readRows_error_of_uncaught (rows : List LedgerRow) (row : LedgerRow)
    (hmem : row ∈ rows) (hnb : pyStrip row.symbol ≠ "")
    (hu : row.quantity = .uncaught ∨
          ∃ q, row.quantity = .ok q ∧ row.avgCost = .uncaught) :
    readRows rows = .error () := by
  induction rows with
  | nil => cases hmem
  | cons head tail ih =>
    rcases List.mem_cons.mp hmem with heq | hmem2
    · subst heq
      unfold readRows rowOutcome
      rw [if_neg hnb]
      rcases hu with h | ⟨q, hq, ha⟩
      · rw [h]
      · rw [hq, ha]
    · unfold readRows
      cases ho : rowOutcome head with
      | error e => rfl
      | ok opt =>
        cases opt with
        | none => exact ih hmem2
        | some holding => rw [ih hmem2]

lemma process_step_messages (reply : Except Unit ClassifierReply) (s : AgentState) :
    (process_message_step reply s).messages = s.messages := rfl

lemma fetch_step_messages (ledger : Option (List LedgerRow))
    (quotes : String → Option MarketData) (s : AgentState) :
    (fetch_portfolio_step ledger quotes s).messages = s.messages := by
  unfold fetch_portfolio_step
  split <;> rfl

lemma analyze_step_messages (aq : String → Option MarketData)
    (nf : String → List NewsItem) (s : AgentState) :
    (analyze_portfolio_step aq nf s).messages = s.messages := by
  unfold analyze_portfolio_step
  split
  · rfl
  · split <;> (dsimp only; split <;> rfl)

/-! ### Claim theorems -/

/-- Claim C1: for every quote, aggregate sentiment, news list and
optional holding, `_generate_recommendation` applies exactly the
three-rule cascade — base action from change_percent (>5 BUY 0.7,
<-5 SELL 0.7, else HOLD 0.5), then the sentiment adjustment with its
fragment, then the holding-aware dampening — and the reasoning string
is the ordered fragments joined by ". " with a trailing period; the
news list is never consulted. -/
theorem c1_recommendation_rule_cascade (md : MarketData)
    (sentiment : SentimentIndicator) (news : List NewsItem)
    (holding : Option PortfolioHolding) :
    _generate_recommendation md sentiment news holding =
      recommendationSpec md sentiment holding :=
  genRec_eq_spec md sentiment news holding

/-- Claim C4: for every input combination, the confidence returned by
the recommendation engine lies within [0.1, 1.0]. -/
theorem c4_confidence_always_clamped (md : MarketData)
    (sentiment : SentimentIndicator) (news : List NewsItem)
    (holding : Option PortfolioHolding) :
    1 / 10 ≤ (_generate_recommendation md sentiment news holding).2.1 ∧
      (_generate_recommendation md sentiment news holding).2.1 ≤ 1 :=
  genRec_confidence_bounds md sentiment news holding

/-- Claim C10: when the market-data fetch returns absent,
`analyze_symbol` returns the fixed WATCH result (confidence 0, neutral
sentiment, price 0, no news, empty indicators, the fixed reasoning
string), and this is the only path producing WATCH or a confidence
below 0.1. -/
theorem c10_watch_only_on_absent_market_data :
    (∀ (symbol : String) (news : List NewsItem) (holding : Option PortfolioHolding),
      analyze_symbol symbol none news holding =
        { symbol := symbol, current_price := 0, sentiment := .NEUTRAL,
          news_summary := [], technical_indicators := none,
          recommendation := .WATCH, confidence := 0,
          reasoning := "Unable to fetch market data" }) ∧
    (∀ (symbol : String) (md : MarketData) (news : List NewsItem)
        (holding : Option PortfolioHolding),
      (analyze_symbol symbol (some md) news holding).recommendation ≠ .WATCH ∧
      1 / 10 ≤ (analyze_symbol symbol (some md) news holding).confidence) := by
  constructor
  · intro symbol news holding
    rfl
  · intro symbol md news holding
    unfold analyze_symbol
    dsimp only
    exact ⟨genRec_action_ne_watch md (overallSentiment news) news holding,
           (genRec_confidence_bounds md (overallSentiment news) news holding).1⟩

/-- Claim C5 counterexample: for the news list [positive, neutral,
neutral] the source aggregates to POSITIVE, while the majority vote over
the per-article labels (neutral has the strict majority) is NEUTRAL —
so the aggregate is not the majority vote over the labels. -/
theorem c5_counterexample_neutral_majority :
    overallSentiment [samplePosNews, sampleNeuNews, sampleNeuNews] = .POSITIVE ∧
    majorityVoteSpec
      ([samplePosNews, sampleNeuNews, sampleNeuNews].map (·.sentiment)) = .NEUTRAL ∧
    overallSentiment [samplePosNews, sampleNeuNews, sampleNeuNews] ≠
      majorityVoteSpec
        ([samplePosNews, sampleNeuNews, sampleNeuNews].map (·.sentiment)) := by
  decide

/-- Claim C5 amended: the aggregate sentiment is the majority vote over
the labels of the non-neutral articles only (neutral articles abstain),
with ties yielding NEUTRAL; an empty news list yields NEUTRAL. -/
theorem c5_amended_majority_over_non_neutral :
    (∀ news : List NewsItem,
      overallSentiment news =
        majorityVoteSpec ((news.map (·.sentiment)).filter (fun l => l ≠ .NEUTRAL))) ∧
    overallSentiment [] = .NEUTRAL := by
  constructor
  · intro news
    have key : ∀ labels : List SentimentIndicator,
        ((labels.filter (fun l => l ≠ .NEUTRAL)).countP (fun l => l = .POSITIVE) =
          labels.countP (fun l => l = .POSITIVE)) ∧
        ((labels.filter (fun l => l ≠ .NEUTRAL)).countP (fun l => l = .NEGATIVE) =
          labels.countP (fun l => l = .NEGATIVE)) ∧
        ((labels.filter (fun l => l ≠ .NEUTRAL)).countP (fun l => l = .NEUTRAL) = 0) := by
      intro labels
      induction labels with
      | nil => simp
      | cons head tail ih =>
        cases head <;>
          simp only [List.filter_cons, List.countP_cons] <;>
          simp_all [List.countP_cons]
    obtain ⟨hp, hn, hu⟩ := key (news.map (·.sentiment))
    have hmp : (news.map (·.sentiment)).countP (fun l => l = .POSITIVE) =
        news.countP (fun item => item.sentiment = .POSITIVE) := by
      rw [List.countP_map]; rfl
    have hmn : (news.map (·.sentiment)).countP (fun l => l = .NEGATIVE) =
        news.countP (fun item => item.sentiment = .NEGATIVE) := by
      rw [List.countP_map]; rfl
    unfold overallSentiment majorityVoteSpec
    rw [hp, hn, hu, hmp, hmn]
    by_cases he : news = []
    · subst he; simp
    · rw [if_pos he]
      set p := news.countP (fun item => item.sentiment = .POSITIVE) with hpdef
      set n := news.countP (fun item => item.sentiment = .NEGATIVE) with hndef
      by_cases h1 : p > n
      · rw [if_pos h1, if_pos ⟨h1, by omega⟩]
      · rw [if_neg h1]
        by_cases h2 : n > p
        · rw [if_pos h2, if_neg (by omega), if_pos ⟨h2, by omega⟩]
        · rw [if_neg h2, if_neg (by omega), if_neg (by omega)]
  · rfl

/-- Claim C6: the relevance score equals min(1.0, 0.6 × case-insensitive
symbol mention count + 0.4 × number of distinct keywords from the fixed
set present in the text), and the text "AAPL AAPL stock price" with
symbol "AAPL" scores exactly 1.0. -/
theorem c6_relevance_formula :
    (∀ text symbol : String,
      _calculate_relevance text symbol = relevanceSpec text symbol) ∧
    _calculate_relevance "AAPL AAPL stock price" "AAPL" = 1 := by
  constructor
  · intro text symbol
    unfold _calculate_relevance relevanceSpec
    have hnd : (financial_keywords.filter
        (fun keyword => containsSub keyword.toList (pyLower text).toList)).dedup =
        financial_keywords.filter
          (fun keyword => containsSub keyword.toList (pyLower text).toList) :=
      List.Nodup.dedup
        (List.Nodup.filter _ (by decide : financial_keywords.Nodup))
    rw [hnd]
    rw [min_comm]
    have hc : (financial_keywords.countP
        (fun keyword => containsSub keyword.toList (pyLower text).toList)) =
        (financial_keywords.filter
          (fun keyword => containsSub keyword.toList (pyLower text).toList)).length :=
      List.countP_eq_length_filter _ _
    rw [hc]
    ring_nf
  · unfold _calculate_relevance
    have h1 : countSub (pyLower "AAPL").toList
        (pyLower "AAPL AAPL stock price").toList = 2 := by decide
    have h2 : financial_keywords.countP
        (fun keyword =>
          containsSub keyword.toList (pyLower "AAPL AAPL stock price").toList) = 2 := by
      decide
    dsimp only
    rw [h1, h2]
    norm_num [min_def]

/-- Claim C7 counterexample: a parsed oracle record carrying only the
intent field ("stock_analysis", with symbols and requires_portfolio
absent) does not fall back to the full default record — the intent is
kept, and the router sends the turn to FetchPortfolio rather than
directly to Respond. -/
theorem c7_counterexample_partial_record :
    classifyMessage (.ok { intent := some "stock_analysis", symbols := none,
                           requires_portfolio := none }) ≠ fallbackClassification ∧
    _should_fetch_portfolio
      (classifyMessage (.ok { intent := some "stock_analysis", symbols := none,
                              requires_portfolio := none })) = "fetch_portfolio" := by
  decide

/-- Claim C7 amended: an unparseable reply or a failed oracle call
yields the full fallback {general_question, [], false}; a parsed record
defaults each absent field individually (intent → general_question,
symbols → [], requires_portfolio → false); the router proceeds to
FetchPortfolio iff requires_portfolio is true or the intent is
portfolio_query or stock_analysis, otherwise straight to Respond; the
full fallback classification routes directly to Respond. -/
theorem c7_amended_classifier_fallback_and_routing :
    (classifyMessage (.error ()) = fallbackClassification) ∧
    (∀ record : ClassifierReply,
      classifyMessage (.ok record) =
        { intent := record.intent.getD "general_question",
          symbols := record.symbols.getD [],
          requires_portfolio := record.requires_portfolio.getD false }) ∧
    (∀ context : ClassContext,
      _should_fetch_portfolio context =
        if context.requires_portfolio ∨ context.intent = "portfolio_query" ∨
            context.intent = "stock_analysis"
        then "fetch_portfolio" else "generate_response") ∧
    _should_fetch_portfolio fallbackClassification = "generate_response" := by
  refine ⟨rfl, fun record => rfl, fun context => ?_, rfl⟩
  unfold _should_fetch_portfolio
  split_ifs <;> tauto

/-- Claim C2: for a quoted holding with avg_cost > 0 the enrichment
loop sets value = quantity × P, gain_loss = (P − avg_cost) × quantity
and gain_loss_percent = (P − avg_cost)/avg_cost × 100 exactly; but a
quoted holding with avg_cost = 0 makes the loop raise (the
gain_loss_percent division has no guard), contradicting the claimed
guard. -/
theorem c2_enrichment_formulas_and_unguarded_zero_cost :
    (∀ (hd : PortfolioHolding) (md : MarketData)
        (quotes : String → Option MarketData),
      quotes hd.symbol = some md → 0 < hd.avg_cost →
      enrichHoldings quotes [hd] =
        .ok ([{ hd with
                current_price := some md.price,
                value := some (hd.quantity * md.price),
                gain_loss := some ((md.price - hd.avg_cost) * hd.quantity),
                gain_loss_percent :=
                  some ((md.price - hd.avg_cost) / hd.avg_cost * 100) }],
             hd.quantity * md.price, (md.price - hd.avg_cost) * hd.quantity)) ∧
    (∀ (hd : PortfolioHolding) (md : MarketData)
        (quotes : String → Option MarketData),
      quotes hd.symbol = some md → hd.avg_cost = 0 →
      enrichHoldings quotes [hd] = .error ()) := by
  constructor
  · intro hd md quotes hq hpos
    unfold enrichHoldings
    rw [hq]
    dsimp only
    rw [if_neg (ne_of_gt hpos)]
    simp [enrichHoldings, enrichedHolding]
  · intro hd md quotes hq hz
    unfold enrichHoldings
    rw [hq]
    dsimp only
    rw [if_pos hz]

/-- Claim C2 witness: the formula conjunct applied at a holding of
2 shares at cost 100 quoted at 110, and the raising conjunct applied at
the zero-cost holding. -/
theorem c2_witness_concrete_holdings :
    enrichHoldings constQuotes [posCostHolding] =
      .ok ([{ posCostHolding with
              current_price := some mdZ.price,
              value := some (posCostHolding.quantity * mdZ.price),
              gain_loss :=
                some ((mdZ.price - posCostHolding.avg_cost) * posCostHolding.quantity),
              gain_loss_percent :=
                some ((mdZ.price - posCostHolding.avg_cost) / posCostHolding.avg_cost * 100) }],
           posCostHolding.quantity * mdZ.price,
           (mdZ.price - posCostHolding.avg_cost) * posCostHolding.quantity) ∧
    enrichHoldings constQuotes [zeroCostHolding] = .error () :=
  ⟨c2_enrichment_formulas_and_unguarded_zero_cost.1 posCostHolding mdZ constQuotes
     rfl (by decide),
   c2_enrichment_formulas_and_unguarded_zero_cost.2 zeroCostHolding mdZ constQuotes
     rfl rfl⟩

/-- Claim C3: after a successful enrichment, each holding is mapped
through `enrichFn` (unquoted holdings unchanged, keeping their derived
fields absent), total_value and total_gain_loss are the sums of the
per-holding contributions (unquoted holdings contributing zero), and
total_gain_loss_percent follows the guarded formula. -/
theorem c3_aggregate_invariants (p : PortfolioData)
    (quotes : String → Option MarketData) (p2 : PortfolioData)
    (h : update_portfolio_with_market_data p quotes = .ok p2) :
    p2.holdings = p.holdings.map (enrichFn quotes) ∧
    (∀ hd ∈ p.holdings, quotes hd.symbol = none → enrichFn quotes hd = hd) ∧
    p2.total_value = (p.holdings.map (quotedValue quotes)).sum ∧
    p2.total_gain_loss = (p.holdings.map (quotedGainLoss quotes)).sum ∧
    p2.total_gain_loss_percent =
      (if p2.total_value = p2.total_gain_loss then 0
       else p2.total_gain_loss / (p2.total_value - p2.total_gain_loss) * 100) := by
  unfold update_portfolio_with_market_data at h
  cases he : enrichHoldings quotes p.holdings with
  | error e => rw [he] at h; cases h
  | ok triple =>
    rcases triple with ⟨hs, tv, tg⟩
    rw [he] at h
    simp only [Except.ok.injEq] at h
    obtain ⟨h1, h2, h3⟩ := enrichHoldings_ok_spec quotes p.holdings hs tv tg he
    subst h
    refine ⟨h1, ?_, h2, h3, ?_⟩
    · intro hd _ hq
      unfold enrichFn
      rw [hq]
    · by_cases hz : tv = tg <;> simp [hz]

/-- Claim C3 witness: the three-symbol snapshot where the CCC quote
fails — AAA and BBB are enriched, CCC is untouched, and the aggregates
match the sums (28, 8 and the guarded percent 40). -/
theorem c3_witness_partial_batch :
    update_portfolio_with_market_data samplePortfolio sampleQuotes =
      .ok samplePortfolioEnriched ∧
    samplePortfolioEnriched.total_value =
      (samplePortfolio.holdings.map (quotedValue sampleQuotes)).sum ∧
    samplePortfolioEnriched.total_gain_loss =
      (samplePortfolio.holdings.map (quotedGainLoss sampleQuotes)).sum := by
  have hupdate : update_portfolio_with_market_data samplePortfolio sampleQuotes =
      .ok samplePortfolioEnriched := by
    simp [update_portfolio_with_market_data, enrichHoldings, samplePortfolio,
      sampleQuotes, holdingA, holdingB, holdingC, mdA, mdB, enrichedHolding,
      samplePortfolioEnriched]
    norm_num
  exact ⟨hupdate,
    (c3_aggregate_invariants samplePortfolio sampleQuotes samplePortfolioEnriched
      hupdate).2.2.1,
    (c3_aggregate_invariants samplePortfolio sampleQuotes samplePortfolioEnriched
      hupdate).2.2.2.1⟩

/-- Claim C8 counterexample: the file [shortRow, goodRow] — a short
data row "nvda,5" whose missing Average Cost cell makes float(None)
raise an uncaught TypeError, followed by a well-formed row — yields the
empty snapshot: the failing row is not skipped, it aborts the read and
discards the remaining well-formed row, which on its own yields a
non-empty snapshot. -/
theorem c8_counterexample_short_row_aborts :
    get_portfolio_data (some [shortRow, goodRow]) =
      { holdings := [], total_value := 0, total_gain_loss := 0,
        total_gain_loss_percent := 0 } ∧
    get_portfolio_data (some [goodRow]) ≠
      { holdings := [], total_value := 0, total_gain_loss := 0,
        total_gain_loss_percent := 0 } := by
  decide

/-- Claim C8 amended: the Ledger Reader never raises; a missing file
yields the empty snapshot with zero aggregates; rows with a blank
symbol are skipped; rows whose quantity or average-cost cell fails
numeric parsing with a caught error (ValueError on unparseable text or
KeyError on a missing column name) are skipped without aborting the
remaining rows; every accepted row yields one holding with the symbol
uppercased and trimmed and all derived fields absent; but a row whose
numeric cell is absent (a short data row: DictReader fills None and
float(None) raises TypeError) escapes the row-level handler and the
whole read falls back to the empty snapshot, discarding every other
row. -/
theorem c8_amended_ledger_reader :
    (get_portfolio_data none =
      { holdings := [], total_value := 0, total_gain_loss := 0,
        total_gain_loss_percent := 0 }) ∧
    (∀ (row : LedgerRow) (rows : List LedgerRow), pyStrip row.symbol = "" →
      get_portfolio_data (some (row :: rows)) = get_portfolio_data (some rows)) ∧
    (∀ (row : LedgerRow) (rows : List LedgerRow), row.quantity = .caught →
      get_portfolio_data (some (row :: rows)) = get_portfolio_data (some rows)) ∧
    (∀ (row : LedgerRow) (rows : List LedgerRow) (q : ℚ), row.quantity = .ok q →
      row.avgCost = .caught →
      get_portfolio_data (some (row :: rows)) = get_portfolio_data (some rows)) ∧
    (∀ (row : LedgerRow) (q a : ℚ), pyStrip row.symbol ≠ "" →
      row.quantity = .ok q → row.avgCost = .ok a →
      rowOutcome row =
        .ok (some { symbol := pyStrip (pyUpper row.symbol), quantity := q,
                    avg_cost := a, current_price := none, value := none,
                    gain_loss := none, gain_loss_percent := none })) ∧
    (∀ (rows : List LedgerRow) (row : LedgerRow), row ∈ rows →
      pyStrip row.symbol ≠ "" →
      (row.quantity = .uncaught ∨
        ∃ q, row.quantity = .ok q ∧ row.avgCost = .uncaught) →
      get_portfolio_data (some rows) =
        { holdings := [], total_value := 0, total_gain_loss := 0,
          total_gain_loss_percent := 0 }) := by
  refine ⟨rfl, ?_, ?_, ?_, ?_, ?_⟩
  · intro row rows hb
    have ho : rowOutcome row = .ok none := by
      unfold rowOutcome
      rw [if_pos hb]
    unfold get_portfolio_data
    dsimp only
    have hr : readRows (row :: rows) = readRows rows := by
      simp only [readRows, ho]
    rw [hr]
  · intro row rows hq
    have ho : rowOutcome row = .ok none := by
      unfold rowOutcome
      split_ifs
      · rfl
      · rw [hq]
    unfold get_portfolio_data
    dsimp only
    have hr : readRows (row :: rows) = readRows rows := by
      simp only [readRows, ho]
    rw [hr]
  · intro row rows q hq ha
    have ho : rowOutcome row = .ok none := by
      unfold rowOutcome
      split_ifs
      · rfl
      · rw [hq, ha]
    unfold get_portfolio_data
    dsimp only
    have hr : readRows (row :: rows) = readRows rows := by
      simp only [readRows, ho]
    rw [hr]
  · intro row q a hnb hq ha
    unfold rowOutcome
    rw [if_neg hnb, hq, ha]
  · intro rows row hmem hnb hu
    have habort := readRows_error_of_uncaught rows row hmem hnb hu
    unfold get_portfolio_data
    dsimp only
    rw [habort]

/-- Claim C8 amended witness: the blank-symbol row and the
caught-failure row are each skipped, the well-formed row " aapl " / 10
/ 150 is accepted with its symbol uppercased and trimmed and no derived
fields, and the short row drags the whole file [shortRow, goodRow] down
to the empty snapshot. -/
theorem c8_amended_witness_concrete_rows :
    get_portfolio_data (some [blankRow]) = get_portfolio_data (some []) ∧
    get_portfolio_data (some [badRow]) = get_portfolio_data (some []) ∧
    rowOutcome goodRow =
      .ok (some { symbol := pyStrip (pyUpper goodRow.symbol), quantity := 10,
                  avg_cost := 150, current_price := none, value := none,
                  gain_loss := none, gain_loss_percent := none }) ∧
    get_portfolio_data (some [shortRow, goodRow]) =
      { holdings := [], total_value := 0, total_gain_loss := 0,
        total_gain_loss_percent := 0 } :=
  ⟨c8_amended_ledger_reader.2.1 blankRow [] (by decide),
   c8_amended_ledger_reader.2.2.1 badRow [] rfl,
   c8_amended_ledger_reader.2.2.2.2.1 goodRow 10 150 (by decide) rfl rfl,
   c8_amended_ledger_reader.2.2.2.2.2 [shortRow, goodRow] shortRow (by decide)
     (by decide) (Or.inr ⟨5, rfl, rfl⟩)⟩

/-- Claim C9: every turn appends exactly the user message and one
assistant message — the synthesis reply on success, the fixed apology
on synthesis failure — whatever the classifier, ledger, quote and news
outcomes are; and an exception escaping enrichment inside
FetchPortfolio is caught at the step boundary, leaving the portfolio
null. -/
theorem c9_turn_always_produces_one_reply :
    (∀ (user_text : String) (oracles : TurnOracles) (session : AgentState),
      (process_turn user_text oracles session).messages =
        session.messages ++
          [{ role := "user", content := user_text },
           { role := "assistant",
             content :=
               match oracles.synthesis_reply with
               | .ok text => text
               | .error _ => apologyMessage }]) ∧
    (∀ (ledger : Option (List LedgerRow)) (quotes : String → Option MarketData)
        (s : AgentState),
      (fetch_portfolio_step ledger quotes s).portfolio_data =
        match update_portfolio_with_market_data (get_portfolio_data ledger) quotes with
        | .ok portfolio => some portfolio
        | .error _ => none) := by
  constructor
  · intro user_text oracles session
    unfold process_turn run_graph
    dsimp only
    split_ifs <;>
      cases hr : oracles.synthesis_reply <;>
      simp [generate_response_step, hr, analyze_step_messages, fetch_step_messages,
            process_step_messages]
  · intro ledger quotes s
    cases hu : update_portfolio_with_market_data (get_portfolio_data ledger) quotes <;>
      simp [fetch_portfolio_step, hu]

end PortfolioBuddy
